import Mathlib

/-!
The bootstrap of VolantMQ: `examples/tcpBoltDB/volantmq.go`

A shallow embedding of `func main()` of `examples/tcpBoltDB/volantmq.go`.

`main` is a straight-line sequence of calls into external collaborators
(viper, the auth registry, BoltDB, the broker server, the OS signal channel).
The outcome of every such call is an input of the model (`Env`); the model
returns the ordered list of calls and log lines that `main` performs
(`Run.trace`), the way the process ends (`Run.exit`) and the signals left
unread on the channel (`Run.signals`).
-/

namespace VolantMQ

/-! ## Data model -/

/-- A Go `error` value: `none` is `nil`, `some msg` is a non-nil error. -/
abbrev GoError := Option String

/-- The two signals `main` subscribes to with `signal.Notify`. -/
inductive Signal where
  | SIGINT
  | SIGTERM
deriving DecidableEq, Repr

/-- One element of `internalCreds` (lines 72-75). -/
structure Cred where
  User : String
  Password : String
deriving DecidableEq, Repr

/-- A Go `map[string]string`: an association list, one entry per key. -/
abbrev GoMap := List (String × String)

/-- The assignment `m[k] = v` on a Go map: an existing key has its value replaced,
a new key gets a new entry. -/
def mapAssign : GoMap → String → String → GoMap
  | [], k, v => [(k, v)]
  | (k', v') :: rest, k, v =>
    if k' = k then (k', v) :: rest else (k', v') :: mapAssign rest k v

/-- The lookup `v, ok := m[k]` on a Go map. -/
def mapIndex : GoMap → String → Option String
  | [], _ => none
  | (k', v') :: rest, k => if k' = k then some v' else mapIndex rest k

/-- The keys of a Go map. -/
def mapKeys (m : GoMap) : List String := m.map Prod.fst

/-- The struct `internalAuth` of the example package (line 68). -/
structure internalAuth where
  creds : GoMap
deriving DecidableEq, Repr

/-- The loop of lines 82-84:
`for i := range internalCreds { ia.creds[internalCreds[i].User] = internalCreds[i].Password }`. -/
def loadCreds (internalCreds : List Cred) (creds : GoMap) : GoMap :=
  internalCreds.foldl (fun m c => mapAssign m c.User c.Password) creds

/-- The literal `configuration.Options{...}` of lines 46-50. -/
structure Options where
  LogWithTs : Bool
  LogLevel : String
  LogEnableTrace : Bool
deriving DecidableEq, Repr

/-- The fields of `volantmq.ServerConfig` that `main` assigns (lines 98-104); the
callback `TransportStatus` only logs and is left out. -/
structure ServerConfig where
  OfflineQoS0 : Bool
  AllowDuplicates : Bool
  Authenticators : String
  AllowOverlappingSubscriptions : Bool
  Persistence : Nat
deriving DecidableEq, Repr

/-- The literal `transport.Config{Port: ..., AuthManager: ...}` (lines 128-131); the
auth manager is an opaque handle. -/
structure TransportConfig where
  Port : String
  AuthManager : Nat
deriving DecidableEq, Repr

/-- The struct `transport.ConfigTCP` returned by `transport.NewConfigTCP`. -/
structure ConfigTCP where
  Scheme : String
  Host : String
  CertFile : String
  KeyFile : String
  transport : TransportConfig
deriving DecidableEq, Repr

/-- Lines 128-134: the transport configuration, with the port defaulted to `"1883"`
when the configured one is empty. -/
def transportConfig (port : String) (authMng : Nat) : TransportConfig :=
  let transportConfig : TransportConfig := { Port := port, AuthManager := authMng }
  if transportConfig.Port = "" then
    { transportConfig with Port := "1883" }
  else
    transportConfig

/-! ## The outside world -/

/-- Everything `main` obtains from outside: what viper returns for each key and what
each collaborator call returns. -/
structure Env where
  /-- Result of `viper.ReadInConfig()`. -/
  readInConfig : GoError
  /-- Value of `viper.GetString("log.level")`. -/
  logLevel : String
  /-- Value of `viper.GetBool("log.enable_trace")`. -/
  logEnableTrace : Bool
  /-- Value of `runtime.GOMAXPROCS(0)`. -/
  gomaxprocs : Int
  /-- Result of `viper.UnmarshalKey("mqtt.auth.internal", &internalCreds)`. -/
  unmarshalKey : Except String (List Cred)
  /-- Result of `auth.Register("internal", ia)`. -/
  authRegister : GoError
  /-- Result of `boltdb.New(...)`: a persistence handle or an error. -/
  boltdbNew : Except String Nat
  /-- Error result of `volantmq.NewServer(serverConfig)`. -/
  newServer : GoError
  /-- Result of `auth.NewManager("internal")`: a manager handle or an error. -/
  newManager : Except String Nat
  /-- Value of `viper.GetString("mqtt.tcp.port")`. -/
  tcpPort : String
  /-- Value of `viper.GetBool("mqtt.tcp.ssl_enable")`. -/
  sslEnable : Bool
  /-- Value of `viper.GetString("mqtt.tcp.ssl_cert_file")`. -/
  sslCertFile : String
  /-- Value of `viper.GetString("mqtt.tcp.ssl_cert_key_file")`. -/
  sslCertKeyFile : String
  /-- The library function `transport.NewConfigTCP`. -/
  newConfigTCP : TransportConfig → ConfigTCP
  /-- Result of `srv.ListenAndServe(config)`. -/
  listenAndServe : GoError
  /-- The signals that arrive on `ch`, in order of arrival. -/
  signals : List Signal
  /-- Result of `srv.Close()`. -/
  close : GoError

/-- A zap field attached to a log line. -/
inductive Field where
  | str (key value : String)
  | int (key : String) (value : Int)
  | error (err : String)
deriving DecidableEq, Repr

/-- Log level of a `logger` call. -/
inductive Level where
  | info
  | error
deriving DecidableEq, Repr

/-- The observable actions of `main`, in source order. -/
inductive Event where
  /-- Lines 38-41: `viper.ReadInConfig()` after the three setters. -/
  | readInConfig
  /-- Line 52: `configuration.Init(ops)`. -/
  | configurationInit (ops : Options)
  /-- A call of `logger.Info` or `logger.Error`. -/
  | log (level : Level) (msg : String) (fields : List Field)
  /-- Lines 61-63: the goroutine serving pprof on `localhost:6061`. -/
  | goPprof
  /-- Line 77: `viper.UnmarshalKey`. -/
  | unmarshalKey (key : String)
  /-- Line 86: `auth.Register`. -/
  | authRegister (name : String) (ia : internalAuth)
  /-- Line 97: `volantmq.NewServerConfig()`. -/
  | newServerConfig
  /-- Line 104: `boltdb.New`. -/
  | boltdbNew (file : String)
  /-- Line 113: `volantmq.NewServer`. -/
  | newServer (cfg : ServerConfig)
  /-- Line 122: `auth.NewManager`. -/
  | newManager (name : String)
  /-- Line 135: `transport.NewConfigTCP`. -/
  | newConfigTCP (tc : TransportConfig)
  /-- Line 153: `srv.ListenAndServe`. -/
  | listenAndServe (config : ConfigTCP)
  /-- Line 159: `signal.Notify(ch, ...)`. -/
  | signalNotify (sigs : List Signal)
  /-- Line 160: the receive `<-ch`; `none` when no signal ever arrives. -/
  | chanRecv (sig : Option Signal)
  /-- Line 162: `srv.Close()`. -/
  | srvClose
deriving DecidableEq, Repr

/-- How a run of `main` ends. -/
inductive Exit where
  /-- Function `main` returns: the process ends with status 0. -/
  | returned
  /-- The call `os.Exit(code)`. -/
  | osExit (code : Int)
  /-- A Go panic with the given message. -/
  | panicked (msg : String)
  /-- Function `main` stays blocked in `<-ch` for ever. -/
  | blocked
deriving DecidableEq, Repr

/-- A run of `main`. -/
structure Run where
  trace : List Event
  exit : Exit
  signals : List Signal
deriving DecidableEq, Repr

/-- The method `sig.String()` for the two signals. -/
def Signal.String : Signal → String
  | .SIGINT => "interrupt"
  | .SIGTERM => "terminated"

/-! ## `main` -/

/-- Lines 153-166 of `main`: start the listener, wait for one signal, close the
server. `t` is the trace so far and `config` the listener configuration. -/
def mainServe (e : Env) (t : List Event) (config : ConfigTCP) : Run :=
  let t := t ++ [.listenAndServe config]
  match e.listenAndServe with
  | some err =>
    ⟨t ++ [.log .error "Couldn't start listener" [.error err]], .returned, e.signals⟩
  | none =>
  let t := t ++ [.signalNotify [.SIGINT, .SIGTERM]]
  match e.signals with
  | [] => ⟨t ++ [.chanRecv none], .blocked, []⟩
  | sig :: pending =>
  let t := t ++ [.chanRecv (some sig),
    .log .info "Received signal...starting shutdown..." [.str "signal" sig.String]]
  let t := t ++ [.srvClose]
  match e.close with
  | some err =>
    ⟨t ++ [.log .error "Couldn't shutdown server" [.error err]], .returned, pending⟩
  | none =>
    ⟨t ++ [.log .info "Server shut down." []], .returned, pending⟩

/-- Function `main` (lines 37-171); lines 153-166 are `mainServe`. -/
def main (e : Env) : Run :=
  let t : List Event := [.readInConfig]
  match e.readInConfig with
  | some err => ⟨t, .panicked ("Couldn't read config file: " ++ err), e.signals⟩
  | none =>
  let ops : Options :=
    { LogWithTs := true, LogLevel := e.logLevel, LogEnableTrace := e.logEnableTrace }
  let t := t ++ [.configurationInit ops,
    .log .info "Starting application" [],
    .log .info "Allocated cores" [.int "GOMAXPROCS" e.gomaxprocs],
    .goPprof,
    .log .info "Initializing configs" []]
  let ia : internalAuth := { creds := [] }
  let t := t ++ [.unmarshalKey "mqtt.auth.internal"]
  match e.unmarshalKey with
  | .error err =>
    ⟨t ++ [.log .error "Couldn't unmarshal config" [.error err]], .osExit 1, e.signals⟩
  | .ok internalCreds =>
  let ia : internalAuth := { ia with creds := loadCreds internalCreds ia.creds }
  let t := t ++ [.authRegister "internal" ia]
  match e.authRegister with
  | some err =>
    ⟨t ++ [.log .error "Couldn't register *internal* auth provider" [.error err]],
      .osExit 1, e.signals⟩
  | none =>
  let t := t ++ [.newServerConfig, .boltdbNew "./persist.db"]
  match e.boltdbNew with
  | .error err =>
    ⟨t ++ [.log .error "Couldn't init BoltDB persistence" [.error err]],
      .osExit 1, e.signals⟩
  | .ok persistence =>
  let serverConfig : ServerConfig :=
    { OfflineQoS0 := true, AllowDuplicates := false, Authenticators := "internal",
      AllowOverlappingSubscriptions := true, Persistence := persistence }
  let t := t ++ [.newServer serverConfig]
  match e.newServer with
  | some err =>
    ⟨t ++ [.log .error "Couldn't create server" [.error err]], .osExit 1, e.signals⟩
  | none =>
  let t := t ++ [.newManager "internal"]
  match e.newManager with
  | .error err =>
    ⟨t ++ [.log .error "Couldn't register *amqp* auth provider" [.error err]],
      .returned, e.signals⟩
  | .ok authMng =>
  let tc := transportConfig e.tcpPort authMng
  let config := e.newConfigTCP tc
  let t := t ++ [.newConfigTCP tc]
  let tcpSSLEnabled := e.sslEnable
  if tcpSSLEnabled then
    let config : ConfigTCP :=
      { config with CertFile := e.sslCertFile, KeyFile := e.sslCertKeyFile }
    if config.CertFile = "" then
      ⟨t ++ [.log .error "tcp ssl enabled, but ssl cert file is not set !" []],
        .returned, e.signals⟩
    else if config.KeyFile = "" then
      ⟨t ++ [.log .error "tcp ssl enabled, but ssl cert key file is not set !" []],
        .returned, e.signals⟩
    else
      mainServe e t config
  else
    mainServe e t config

/-! ## Observations on a run -/

/-- The collaborator calls of the bootstrap pipeline. -/
inductive Call where
  | authRegister
  | boltdbNew
  | newServer
  | newManager
  | listenAndServe
  | waitForSignal
  | srvClose
deriving DecidableEq, Repr

/-- The collaborator call an event stands for, if any. -/
def Event.call? : Event → Option Call
  | .authRegister _ _ => some .authRegister
  | .boltdbNew _ => some .boltdbNew
  | .newServer _ => some .newServer
  | .newManager _ => some .newManager
  | .listenAndServe _ => some .listenAndServe
  | .chanRecv _ => some .waitForSignal
  | .srvClose => some .srvClose
  | _ => none

/-- The collaborator calls of a trace, in order. -/
def callsOf (t : List Event) : List Call := t.filterMap Event.call?

/-- The pipeline order of the collaborator calls. -/
def fixedOrder : List Call :=
  [.authRegister, .boltdbNew, .newServer, .newManager, .listenAndServe,
    .waitForSignal, .srvClose]

/-- Whether the outside world makes the given call fail. -/
def callFails (e : Env) : Call → Bool
  | .authRegister => e.authRegister.isSome
  | .boltdbNew => !e.boltdbNew.toBool
  | .newServer => e.newServer.isSome
  | .newManager => !e.newManager.toBool
  | .listenAndServe => e.listenAndServe.isSome
  | .waitForSignal => false
  | .srvClose => e.close.isSome

/-- Number of `srv.Close()` calls in a trace. -/
def closeCount (t : List Event) : Nat := t.count .srvClose

/-- Whether an event is an error-level log line. -/
def Event.isErrorLog : Event → Bool
  | .log .error _ _ => true
  | _ => false

/-- The steps of the bootstrap that can fail (steps 3 to 10 of the pipeline). -/
inductive Step where
  | unmarshal
  | register
  | persistence
  | newServer
  | newManager
  | tlsConfig
  | listen
deriving DecidableEq, Repr

/-- The first step of the bootstrap that fails in the given world, after the
configuration file was read; `none` when every step succeeds. -/
def firstFailure (e : Env) : Option Step :=
  if !e.unmarshalKey.toBool then some .unmarshal
  else if e.authRegister.isSome then some .register
  else if !e.boltdbNew.toBool then some .persistence
  else if e.newServer.isSome then some .newServer
  else if !e.newManager.toBool then some .newManager
  else if e.sslEnable && (e.sslCertFile == "" || e.sslCertKeyFile == "") then
    some .tlsConfig
  else if e.listenAndServe.isSome then some .listen
  else none

/-- The entry `(u, p)` is the last one for user `u` in `cs`: nothing after it in the
list has user `u`. -/
def IsLastOccurrence (cs : List Cred) (u p : String) : Prop :=
  ∃ pre post, cs = pre ++ ⟨u, p⟩ :: post ∧ ∀ c ∈ post, c.User ≠ u

/-- The world reaches the listener-configuration step (line 138): the configuration
file was read and every earlier fallible step succeeded. -/
def ReachesListenerConfig (e : Env) : Prop :=
  e.readInConfig = none ∧ e.unmarshalKey.toBool = true ∧ e.authRegister = none ∧
    e.boltdbNew.toBool = true ∧ e.newServer = none ∧ e.newManager.toBool = true

instance (e : Env) : Decidable (ReachesListenerConfig e) := by
  unfold ReachesListenerConfig
  infer_instance

/-- Whether the last event of a trace is an error-level log line. -/
def endsWithErrorLog (t : List Event) : Bool :=
  match t.getLast? with
  | some ev => ev.isErrorLog
  | none => false

/-- Number of receives `<-ch` in a trace. -/
def recvCount (t : List Event) : Nat := (callsOf t).count .waitForSignal

/-- A library `transport.NewConfigTCP` used for concrete runs: scheme `tcp`, the
other string fields empty. -/
def newConfigTCP (transport : TransportConfig) : ConfigTCP :=
  { Scheme := "tcp", Host := "", CertFile := "", KeyFile := "", transport := transport }

/-- A world in which every step succeeds, one user is configured and SIGINT
arrives. -/
def okEnv : Env :=
  { readInConfig := none, logLevel := "info", logEnableTrace := false, gomaxprocs := 4,
    unmarshalKey := .ok [⟨"a", "p"⟩], authRegister := none, boltdbNew := .ok 1,
    newServer := none, newManager := .ok 2, tcpPort := "", sslEnable := false,
    sslCertFile := "", sslCertKeyFile := "", newConfigTCP := newConfigTCP,
    listenAndServe := none, signals := [.SIGINT], close := none }

/-- The world of `okEnv` with two signals arriving, SIGINT then SIGTERM. -/
def twoSignalsEnv : Env := { okEnv with signals := [.SIGINT, .SIGTERM] }

/-- The world of `okEnv` with BoltDB failing to open. -/
def persistenceFailEnv : Env := { okEnv with boltdbNew := .error "timeout" }

/-- The world of `okEnv` with `auth.NewManager` failing. -/
def newManagerFailEnv : Env := { okEnv with newManager := .error "unknown provider" }

/-- The world of `okEnv` with TLS enabled, no certificate file and a key file. -/
def tlsNoCertEnv : Env :=
  { okEnv with sslEnable := true, sslCertFile := "", sslCertKeyFile := "server.key" }

/-- The world of `okEnv` with TLS enabled and both files configured. -/
def tlsEnv : Env :=
  { okEnv with sslEnable := true, sslCertFile := "server.crt", sslCertKeyFile := "server.key" }

/-- The world of `okEnv` with port `8883` and the listener failing to start. -/
def listenFailEnv : Env :=
  { okEnv with tcpPort := "8883", listenAndServe := some "address already in use" }

end VolantMQ

/-! ## The credential map -/

namespace VolantMQ

theorem mapIndex_mapAssign (m : GoMap) (k v u : String) :
    mapIndex (mapAssign m k v) u = if k = u then some v else mapIndex m u := by
  induction m with
  | nil => simp [mapAssign, mapIndex]
  | cons kv rest ih =>
    obtain ⟨k', v'⟩ := kv
    by_cases hk : k' = k
    · subst hk
      by_cases hu : k' = u <;> simp [mapAssign, mapIndex, hu]
    · by_cases hu : k' = u
      · subst hu
        simp [mapAssign, mapIndex, hk, Ne.symm hk]
      · simp [mapAssign, mapIndex, hk, hu, ih]

theorem mem_mapKeys_mapAssign (m : GoMap) (k v u : String) :
    u ∈ mapKeys (mapAssign m k v) ↔ u = k ∨ u ∈ mapKeys m := by
  induction m with
  | nil => simp [mapAssign, mapKeys]
  | cons kv rest ih =>
    obtain ⟨k', v'⟩ := kv
    by_cases hk : k' = k
    · subst hk
      simp [mapAssign, mapKeys]
    · have ih' : u ∈ List.map Prod.fst (mapAssign rest k v) ↔
          u = k ∨ u ∈ List.map Prod.fst rest := ih
      simp only [mapAssign, mapKeys, hk, if_false, List.map_cons, List.mem_cons, ih']
      tauto

theorem nodup_mapKeys_mapAssign (m : GoMap) (k v : String) (h : (mapKeys m).Nodup) :
    (mapKeys (mapAssign m k v)).Nodup := by
  induction m with
  | nil => simp [mapAssign, mapKeys]
  | cons kv rest ih =>
    obtain ⟨k', v'⟩ := kv
    have h' : k' ∉ mapKeys rest ∧ (mapKeys rest).Nodup := by
      simpa [mapKeys] using h
    by_cases hk : k' = k
    · subst hk
      simpa [mapAssign, mapKeys] using h
    · have hmem : k' ∉ mapKeys (mapAssign rest k v) := by
        rw [mem_mapKeys_mapAssign]
        rintro (h1 | h1)
        · exact hk h1
        · exact h'.1 h1
      have hnd := ih h'.2
      have : (k' :: mapKeys (mapAssign rest k v)).Nodup := List.nodup_cons.mpr ⟨hmem, hnd⟩
      simpa [mapAssign, mapKeys, hk] using this

theorem loadCreds_cons (c : Cred) (cs : List Cred) (m : GoMap) :
    loadCreds (c :: cs) m = loadCreds cs (mapAssign m c.User c.Password) := rfl

theorem nodup_mapKeys_loadCreds (cs : List Cred) (m : GoMap) (h : (mapKeys m).Nodup) :
    (mapKeys (loadCreds cs m)).Nodup := by
  induction cs generalizing m with
  | nil => simpa [loadCreds] using h
  | cons c cs ih =>
    rw [loadCreds_cons]
    exact ih _ (nodup_mapKeys_mapAssign m _ _ h)

theorem mem_mapKeys_loadCreds (cs : List Cred) (m : GoMap) (u : String) :
    u ∈ mapKeys (loadCreds cs m) ↔ (∃ c ∈ cs, c.User = u) ∨ u ∈ mapKeys m := by
  induction cs generalizing m with
  | nil => simp [loadCreds]
  | cons c cs ih =>
    rw [loadCreds_cons, ih, mem_mapKeys_mapAssign]
    simp only [List.mem_cons, exists_eq_or_imp]
    constructor
    · rintro (h | h | h)
      · exact Or.inl (Or.inr h)
      · exact Or.inl (Or.inl h.symm)
      · exact Or.inr h
    · rintro ((h | h) | h)
      · exact Or.inr (Or.inl h.symm)
      · exact Or.inl h
      · exact Or.inr (Or.inr h)

theorem mapIndex_loadCreds (cs : List Cred) (m : GoMap) (u p : String) :
    mapIndex (loadCreds cs m) u = some p ↔
      IsLastOccurrence cs u p ∨ ((∀ c ∈ cs, c.User ≠ u) ∧ mapIndex m u = some p) := by
  induction cs generalizing m with
  | nil => simp [loadCreds, IsLastOccurrence]
  | cons c cs ih =>
    rw [loadCreds_cons, ih, mapIndex_mapAssign]
    constructor
    · rintro (⟨pre, post, hcs, hpost⟩ | ⟨hno, hidx⟩)
      · exact Or.inl ⟨c :: pre, post, by simp [hcs], hpost⟩
      · by_cases hu : c.User = u
        · rw [if_pos hu] at hidx
          have hp : c.Password = p := Option.some.inj hidx
          refine Or.inl ⟨[], cs, ?_, hno⟩
          obtain ⟨cu, cp⟩ := c
          simp only at hu hp
          simp [hu, hp]
        · rw [if_neg hu] at hidx
          refine Or.inr ⟨?_, hidx⟩
          intro c' hc'
          rcases List.mem_cons.mp hc' with h | h
          · rw [h]; exact hu
          · exact hno c' h
    · rintro (⟨pre, post, hcs, hpost⟩ | ⟨hno, hidx⟩)
      · cases pre with
        | nil =>
          simp only [List.nil_append, List.cons.injEq] at hcs
          obtain ⟨hc, hrest⟩ := hcs
          subst hc hrest
          exact Or.inr ⟨hpost, by simp⟩
        | cons d pre =>
          simp only [List.cons_append, List.cons.injEq] at hcs
          exact Or.inl ⟨pre, post, hcs.2, hpost⟩
      · have hu : c.User ≠ u := hno c (List.mem_cons_self _ _)
        refine Or.inr ⟨fun c' hc' => hno c' (List.mem_cons_of_mem _ hc'), ?_⟩
        rw [if_neg hu]
        exact hidx

end VolantMQ

/-! ## The paths through `main` -/

namespace VolantMQ

/-- Case analysis along the control flow of `main`: one case per way through the
function. -/
theorem main_paths {motive : Env → Prop} (e : Env)
    (readFail : ∀ (e : Env) err, e.readInConfig = some err → motive e)
    (unmarshalFail : ∀ (e : Env) err, e.readInConfig = none → e.unmarshalKey = .error err →
      motive e)
    (registerFail : ∀ (e : Env) cs err, e.readInConfig = none → e.unmarshalKey = .ok cs →
      e.authRegister = some err → motive e)
    (persistenceFail : ∀ (e : Env) cs err, e.readInConfig = none → e.unmarshalKey = .ok cs →
      e.authRegister = none → e.boltdbNew = .error err → motive e)
    (newServerFail : ∀ (e : Env) cs p err, e.readInConfig = none → e.unmarshalKey = .ok cs →
      e.authRegister = none → e.boltdbNew = .ok p → e.newServer = some err → motive e)
    (newManagerFail : ∀ (e : Env) cs p err, e.readInConfig = none → e.unmarshalKey = .ok cs →
      e.authRegister = none → e.boltdbNew = .ok p → e.newServer = none →
      e.newManager = .error err → motive e)
    (certEmpty : ∀ (e : Env) cs p a, e.readInConfig = none → e.unmarshalKey = .ok cs →
      e.authRegister = none → e.boltdbNew = .ok p → e.newServer = none →
      e.newManager = .ok a → e.sslEnable = true → e.sslCertFile = "" → motive e)
    (keyEmpty : ∀ (e : Env) cs p a, e.readInConfig = none → e.unmarshalKey = .ok cs →
      e.authRegister = none → e.boltdbNew = .ok p → e.newServer = none →
      e.newManager = .ok a → e.sslEnable = true → e.sslCertFile ≠ "" →
      e.sslCertKeyFile = "" → motive e)
    (tlsListenFail : ∀ (e : Env) cs p a err, e.readInConfig = none → e.unmarshalKey = .ok cs →
      e.authRegister = none → e.boltdbNew = .ok p → e.newServer = none →
      e.newManager = .ok a → e.sslEnable = true → e.sslCertFile ≠ "" →
      e.sslCertKeyFile ≠ "" → e.listenAndServe = some err → motive e)
    (tlsBlocked : ∀ (e : Env) cs p a, e.readInConfig = none → e.unmarshalKey = .ok cs →
      e.authRegister = none → e.boltdbNew = .ok p → e.newServer = none →
      e.newManager = .ok a → e.sslEnable = true → e.sslCertFile ≠ "" →
      e.sslCertKeyFile ≠ "" → e.listenAndServe = none → e.signals = [] → motive e)
    (tlsCloseFail : ∀ (e : Env) cs p a sig pending err, e.readInConfig = none →
      e.unmarshalKey = .ok cs → e.authRegister = none → e.boltdbNew = .ok p →
      e.newServer = none → e.newManager = .ok a → e.sslEnable = true →
      e.sslCertFile ≠ "" → e.sslCertKeyFile ≠ "" → e.listenAndServe = none →
      e.signals = sig :: pending → e.close = some err → motive e)
    (tlsClosed : ∀ (e : Env) cs p a sig pending, e.readInConfig = none →
      e.unmarshalKey = .ok cs → e.authRegister = none → e.boltdbNew = .ok p →
      e.newServer = none → e.newManager = .ok a → e.sslEnable = true →
      e.sslCertFile ≠ "" → e.sslCertKeyFile ≠ "" → e.listenAndServe = none →
      e.signals = sig :: pending → e.close = none → motive e)
    (plainListenFail : ∀ (e : Env) cs p a err, e.readInConfig = none → e.unmarshalKey = .ok cs →
      e.authRegister = none → e.boltdbNew = .ok p → e.newServer = none →
      e.newManager = .ok a → e.sslEnable = false → e.listenAndServe = some err →
      motive e)
    (plainBlocked : ∀ (e : Env) cs p a, e.readInConfig = none → e.unmarshalKey = .ok cs →
      e.authRegister = none → e.boltdbNew = .ok p → e.newServer = none →
      e.newManager = .ok a → e.sslEnable = false → e.listenAndServe = none →
      e.signals = [] → motive e)
    (plainCloseFail : ∀ (e : Env) cs p a sig pending err, e.readInConfig = none →
      e.unmarshalKey = .ok cs → e.authRegister = none → e.boltdbNew = .ok p →
      e.newServer = none → e.newManager = .ok a → e.sslEnable = false →
      e.listenAndServe = none → e.signals = sig :: pending → e.close = some err →
      motive e)
    (plainClosed : ∀ (e : Env) cs p a sig pending, e.readInConfig = none →
      e.unmarshalKey = .ok cs → e.authRegister = none → e.boltdbNew = .ok p →
      e.newServer = none → e.newManager = .ok a → e.sslEnable = false →
      e.listenAndServe = none → e.signals = sig :: pending → e.close = none →
      motive e) :
    motive e := by
  cases h1 : e.readInConfig with
  | some err => exact readFail e err h1
  | none =>
  cases h2 : e.unmarshalKey with
  | error err => exact unmarshalFail e err h1 h2
  | ok cs =>
  cases h3 : e.authRegister with
  | some err => exact registerFail e cs err h1 h2 h3
  | none =>
  cases h4 : e.boltdbNew with
  | error err => exact persistenceFail e cs err h1 h2 h3 h4
  | ok p =>
  cases h5 : e.newServer with
  | some err => exact newServerFail e cs p err h1 h2 h3 h4 h5
  | none =>
  cases h6 : e.newManager with
  | error err => exact newManagerFail e cs p err h1 h2 h3 h4 h5 h6
  | ok a =>
  cases h7 : e.sslEnable with
  | true =>
    by_cases h8 : e.sslCertFile = ""
    · exact certEmpty e cs p a h1 h2 h3 h4 h5 h6 h7 h8
    by_cases h9 : e.sslCertKeyFile = ""
    · exact keyEmpty e cs p a h1 h2 h3 h4 h5 h6 h7 h8 h9
    cases h10 : e.listenAndServe with
    | some err => exact tlsListenFail e cs p a err h1 h2 h3 h4 h5 h6 h7 h8 h9 h10
    | none =>
    cases h11 : e.signals with
    | nil => exact tlsBlocked e cs p a h1 h2 h3 h4 h5 h6 h7 h8 h9 h10 h11
    | cons sig pending =>
    cases h12 : e.close with
    | some err =>
      exact tlsCloseFail e cs p a sig pending err h1 h2 h3 h4 h5 h6 h7 h8 h9 h10 h11 h12
    | none => exact tlsClosed e cs p a sig pending h1 h2 h3 h4 h5 h6 h7 h8 h9 h10 h11 h12
  | false =>
    cases h10 : e.listenAndServe with
    | some err => exact plainListenFail e cs p a err h1 h2 h3 h4 h5 h6 h7 h10
    | none =>
    cases h11 : e.signals with
    | nil => exact plainBlocked e cs p a h1 h2 h3 h4 h5 h6 h7 h10 h11
    | cons sig pending =>
    cases h12 : e.close with
    | some err =>
      exact plainCloseFail e cs p a sig pending err h1 h2 h3 h4 h5 h6 h7 h10 h11 h12
    | none => exact plainClosed e cs p a sig pending h1 h2 h3 h4 h5 h6 h7 h10 h11 h12

end VolantMQ

/-! ## Properties of `main` -/

namespace VolantMQ

/-- C1: for every list of `{user, password}` entries loaded by the credential loop
of `main` into the empty `creds` map, the map has one entry per user, its users are
exactly those occurring in the list, each user maps to the password of its last
occurrence, and this map is the one `main` hands to `auth.Register`. -/
theorem C1_loadCreds_last_wins (internalCreds : List Cred) :
    (mapKeys (loadCreds internalCreds [])).Nodup ∧
    (∀ u, u ∈ mapKeys (loadCreds internalCreds []) ↔ ∃ c ∈ internalCreds, c.User = u) ∧
    (∀ u p, mapIndex (loadCreds internalCreds []) u = some p ↔
      IsLastOccurrence internalCreds u p) ∧
    (∀ e : Env, e.readInConfig = none → e.unmarshalKey = .ok internalCreds →
      Event.authRegister "internal" ⟨loadCreds internalCreds []⟩ ∈ (main e).trace) := by
  refine ⟨nodup_mapKeys_loadCreds _ _ (by simp [mapKeys]), ?_, ?_, ?_⟩
  · intro u
    rw [mem_mapKeys_loadCreds]
    simp [mapKeys]
  · intro u p
    simp [mapIndex_loadCreds, mapIndex]
  · intro e h1 h2
    induction e using main_paths <;> simp_all [main, mainServe]

/-- C1 at the list `a:1, b:2, a:3`: user `a` ends with password `3`, and a run of
`main` on that list registers the two-entry map. -/
theorem C1_loadCreds_last_wins_witness :
    mapIndex (loadCreds [⟨"a", "1"⟩, ⟨"b", "2"⟩, ⟨"a", "3"⟩] []) "a" = some "3" ∧
    Event.authRegister "internal" ⟨[("a", "3"), ("b", "2")]⟩ ∈
      (main { okEnv with unmarshalKey := .ok [⟨"a", "1"⟩, ⟨"b", "2"⟩, ⟨"a", "3"⟩] }).trace :=
  ⟨((C1_loadCreds_last_wins [⟨"a", "1"⟩, ⟨"b", "2"⟩, ⟨"a", "3"⟩]).2.2.1 "a" "3").mpr
      ⟨[⟨"a", "1"⟩, ⟨"b", "2"⟩], [], rfl, by simp⟩,
    (C1_loadCreds_last_wins [⟨"a", "1"⟩, ⟨"b", "2"⟩, ⟨"a", "3"⟩]).2.2.2
      { okEnv with unmarshalKey := .ok [⟨"a", "1"⟩, ⟨"b", "2"⟩, ⟨"a", "3"⟩] } rfl rfl⟩

/-- C2: when the listener-configuration step is reached, `main` ends without calling
`srv.ListenAndServe` if and only if `ssl_enable` is true and the certificate path or
the key path is empty; it then logs an error and returns. With TLS enabled and both
paths non-empty `ListenAndServe` is called with exactly these paths in `CertFile` and
`KeyFile`, and with TLS disabled it is called whatever the paths are. -/
theorem C2_tls_validation (e : Env) (h : ReachesListenerConfig e) :
    (Call.listenAndServe ∉ callsOf (main e).trace ↔
      e.sslEnable = true ∧ (e.sslCertFile = "" ∨ e.sslCertKeyFile = "")) ∧
    (Call.listenAndServe ∉ callsOf (main e).trace →
      (main e).exit = .returned ∧ endsWithErrorLog (main e).trace = true) ∧
    (e.sslEnable = true → e.sslCertFile ≠ "" → e.sslCertKeyFile ≠ "" →
      (∃ config, Event.listenAndServe config ∈ (main e).trace) ∧
      ∀ config, Event.listenAndServe config ∈ (main e).trace →
        config.CertFile = e.sslCertFile ∧ config.KeyFile = e.sslCertKeyFile) ∧
    (e.sslEnable = false → Call.listenAndServe ∈ callsOf (main e).trace) := by
  induction e using main_paths <;>
    simp_all [main, mainServe, callsOf, Event.call?, Except.toBool, ReachesListenerConfig,
      endsWithErrorLog, Event.isErrorLog]

/-- C2 at a world with TLS enabled and both files configured: the listener is
started. -/
theorem C2_tls_validation_witness :
    ReachesListenerConfig tlsEnv ∧ ∃ config, Event.listenAndServe config ∈ (main tlsEnv).trace :=
  ⟨by decide,
    ((C2_tls_validation tlsEnv (by decide)).2.2.1 rfl (by decide) (by decide)).1⟩

/-- C3: the transport configuration that `main` builds has port `1883` when the
configured port is the empty string and has exactly the configured port otherwise. -/
theorem C3_port_default (e : Env) (h : ReachesListenerConfig e) :
    ∃ tc, Event.newConfigTCP tc ∈ (main e).trace ∧
      (∀ tc', Event.newConfigTCP tc' ∈ (main e).trace → tc' = tc) ∧
      (e.tcpPort = "" → tc.Port = "1883") ∧
      (e.tcpPort ≠ "" → tc.Port = e.tcpPort) ∧
      ∀ a, tc.Port = (transportConfig e.tcpPort a).Port := by
  induction e using main_paths <;>
    simp_all [main, mainServe, Except.toBool, ReachesListenerConfig, transportConfig] <;>
    split <;> simp_all

/-- C3 at a world with port `8883`: the transport configuration has port `8883`. -/
theorem C3_port_default_witness :
    ReachesListenerConfig listenFailEnv ∧
      ∃ tc, Event.newConfigTCP tc ∈ (main listenFailEnv).trace ∧ tc.Port = "8883" :=
  ⟨by decide,
    (C3_port_default listenFailEnv (by decide)).elim
      fun tc htc => ⟨tc, htc.1, htc.2.2.2.1 (by decide)⟩⟩

/-- C9: the pipeline calls of a run form a prefix of the fixed order, every call
but the last one made succeeded (so a failing call is the last call made), and
`auth.NewManager` is called only after `NewServer` was called and succeeded, and
`ListenAndServe` only after `auth.NewManager` was called and succeeded. -/
theorem C9_fixed_order_fail_fast (e : Env) :
    callsOf (main e).trace <+: fixedOrder ∧
    (∀ c ∈ (callsOf (main e).trace).dropLast, callFails e c = false) ∧
    (∀ c ∈ callsOf (main e).trace, callFails e c = true →
      (callsOf (main e).trace).getLast? = some c) ∧
    (Call.newManager ∈ callsOf (main e).trace →
      Call.newServer ∈ callsOf (main e).trace ∧ e.newServer = none) ∧
    (Call.listenAndServe ∈ callsOf (main e).trace →
      Call.newManager ∈ callsOf (main e).trace ∧ e.newManager.toBool = true) := by
  induction e using main_paths <;>
    simp [main, mainServe, callsOf, fixedOrder, callFails, Event.call?, Except.toBool, *]

end VolantMQ

namespace VolantMQ

/-- The statement of C4 fails at a world where `auth.NewManager` fails: the first
failing step is the Auth Manager resolution (step 8), yet `main` returns normally
instead of calling `os.Exit(1)`. -/
theorem C4_counterexample :
    newManagerFailEnv.readInConfig = none ∧
    firstFailure newManagerFailEnv = some .newManager ∧
    (main newManagerFailEnv).exit = .returned ∧
    (main newManagerFailEnv).exit ≠ .osExit 1 := by
  decide

/-- C4 (amended): when the credential unmarshal, the auth provider registration, the
persistence open or the server construction is the first step to fail, `main` logs
an error and ends with `os.Exit(1)`; when the Auth Manager resolution or the TLS
listener configuration is the first step to fail, `main` logs an error and returns
normally, without `os.Exit`. -/
theorem C4_exit_or_return (e : Env) (hr : e.readInConfig = none) :
    ((firstFailure e = some .unmarshal ∨ firstFailure e = some .register ∨
        firstFailure e = some .persistence ∨ firstFailure e = some .newServer) →
      (main e).exit = .osExit 1 ∧ endsWithErrorLog (main e).trace = true) ∧
    ((firstFailure e = some .newManager ∨ firstFailure e = some .tlsConfig) →
      (main e).exit = .returned ∧ endsWithErrorLog (main e).trace = true) := by
  induction e using main_paths <;>
    simp_all [main, mainServe, firstFailure, Except.toBool, endsWithErrorLog,
      Event.isErrorLog]

/-- C4 (amended) at a world where BoltDB fails to open: `main` ends with
`os.Exit(1)`. -/
theorem C4_exit_or_return_witness :
    persistenceFailEnv.readInConfig = none ∧
    firstFailure persistenceFailEnv = some .persistence ∧
    (main persistenceFailEnv).exit = .osExit 1 :=
  ⟨rfl, by decide,
    ((C4_exit_or_return persistenceFailEnv rfl).1 (Or.inr (Or.inr (Or.inl (by decide))))).1⟩

/-- C5: when every earlier step succeeds and `srv.ListenAndServe` returns an error,
`main` logs that error and returns normally; it does not subscribe to signals, does
not wait for one, does not call `srv.Close` and leaves the signals unread. -/
theorem C5_listen_failure_returns (e : Env) (hr : e.readInConfig = none)
    (h : firstFailure e = some .listen) :
    (main e).exit = .returned ∧
    (∃ err, e.listenAndServe = some err ∧
      (main e).trace.getLast? = some (.log .error "Couldn't start listener" [.error err])) ∧
    (∀ sigs, Event.signalNotify sigs ∉ (main e).trace) ∧
    Call.waitForSignal ∉ callsOf (main e).trace ∧
    Call.srvClose ∉ callsOf (main e).trace ∧
    (main e).signals = e.signals := by
  induction e using main_paths <;>
    simp_all [main, mainServe, firstFailure, Except.toBool, callsOf, Event.call?]

/-- C5 at a world where the listener fails to start: `main` returns and never calls
`srv.Close`. -/
theorem C5_listen_failure_returns_witness :
    firstFailure listenFailEnv = some .listen ∧
    (main listenFailEnv).exit = .returned ∧
    Call.srvClose ∉ callsOf (main listenFailEnv).trace :=
  ⟨by decide, (C5_listen_failure_returns listenFailEnv rfl (by decide)).1,
    (C5_listen_failure_returns listenFailEnv rfl (by decide)).2.2.2.2.1⟩

/-- C6: when `boltdb.New` fails, neither `volantmq.NewServer` nor
`srv.ListenAndServe` is called; and in every run in which `srv.ListenAndServe` is
called, `boltdb.New` and `volantmq.NewServer` were called and both succeeded. -/
theorem C6_no_server_without_persistence (e : Env) :
    (e.boltdbNew.toBool = false →
      Call.newServer ∉ callsOf (main e).trace ∧
      Call.listenAndServe ∉ callsOf (main e).trace) ∧
    (Call.listenAndServe ∈ callsOf (main e).trace →
      Call.boltdbNew ∈ callsOf (main e).trace ∧ e.boltdbNew.toBool = true ∧
      Call.newServer ∈ callsOf (main e).trace ∧ e.newServer = none) := by
  induction e using main_paths <;>
    simp_all [main, mainServe, Except.toBool, callsOf, Event.call?]

/-- C6 at a world where BoltDB fails to open: no server is constructed and no
listener is started. -/
theorem C6_no_server_without_persistence_witness :
    persistenceFailEnv.boltdbNew.toBool = false ∧
    Call.newServer ∉ callsOf (main persistenceFailEnv).trace ∧
    Call.listenAndServe ∉ callsOf (main persistenceFailEnv).trace :=
  ⟨rfl, (C6_no_server_without_persistence persistenceFailEnv).1 rfl⟩

/-- C7: `srv.Close` is called at most once in a run; it is called exactly once
precisely when `srv.ListenAndServe` was called and succeeded and a signal arrives;
a run receives from the channel at most once, and a run that calls `srv.Close` has
read exactly the first signal and leaves every later one unread. -/
theorem C7_close_at_most_once (e : Env) :
    closeCount (main e).trace ≤ 1 ∧
    (closeCount (main e).trace = 1 ↔
      Call.listenAndServe ∈ callsOf (main e).trace ∧ e.listenAndServe = none ∧
        e.signals ≠ []) ∧
    recvCount (main e).trace ≤ 1 ∧
    (closeCount (main e).trace = 1 →
      recvCount (main e).trace = 1 ∧
      Event.chanRecv e.signals.head? ∈ (main e).trace ∧
      (main e).signals = e.signals.tail) ∧
    (∀ s1 s2 rest, e.signals = s1 :: s2 :: rest →
      closeCount (main e).trace ≤ 1 ∧
      (closeCount (main e).trace = 1 → (main e).signals = s2 :: rest)) := by
  induction e using main_paths <;>
    simp [main, mainServe, closeCount, recvCount, callsOf, Event.call?, *]

/-- C7 at a world where two signals arrive: one `srv.Close`, and the second signal
stays unread. -/
theorem C7_close_at_most_once_witness :
    closeCount (main twoSignalsEnv).trace = 1 ∧
    (main twoSignalsEnv).signals = [Signal.SIGTERM] :=
  ⟨by decide,
    ((C7_close_at_most_once twoSignalsEnv).2.2.2.2 .SIGINT .SIGTERM [] rfl).2 (by decide)⟩

/-- The statement of C8 fails at a world with TLS enabled and no certificate file:
persistence and server were opened, the run ends at the listener-configuration
step, and its trace has no `srv.Close` and no other release of the persistence. -/
theorem C8_counterexample :
    ReachesListenerConfig tlsNoCertEnv ∧ tlsNoCertEnv.sslEnable = true ∧
    tlsNoCertEnv.sslCertFile = "" ∧
    closeCount (main tlsNoCertEnv).trace = 0 ∧
    (main tlsNoCertEnv).exit = .returned ∧
    (main tlsNoCertEnv).trace =
      [.readInConfig,
        .configurationInit { LogWithTs := true, LogLevel := "info", LogEnableTrace := false },
        .log .info "Starting application" [],
        .log .info "Allocated cores" [.int "GOMAXPROCS" 4],
        .goPprof,
        .log .info "Initializing configs" [],
        .unmarshalKey "mqtt.auth.internal",
        .authRegister "internal" { creds := [("a", "p")] },
        .newServerConfig,
        .boltdbNew "./persist.db",
        .newServer
          { OfflineQoS0 := true, AllowDuplicates := false, Authenticators := "internal",
            AllowOverlappingSubscriptions := true, Persistence := 1 },
        .newManager "internal",
        .newConfigTCP { Port := "1883", AuthManager := 2 },
        .log .error "tcp ssl enabled, but ssl cert file is not set !" []] := by
  decide

/-- C8 (amended): with `ssl_enable` true and an empty `ssl_cert_file`, persistence
and server opened, `main` ends at the listener-configuration step: it logs the
missing certificate file and returns, without calling `srv.ListenAndServe` and
without calling `srv.Close`; `boltdb.New` is its last call on the persistence. -/
theorem C8_tls_abort_no_close (e : Env) (h : ReachesListenerConfig e)
    (hs : e.sslEnable = true) (hc : e.sslCertFile = "") :
    (main e).exit = .returned ∧
    (main e).trace.getLast? =
      some (.log .error "tcp ssl enabled, but ssl cert file is not set !" []) ∧
    Call.listenAndServe ∉ callsOf (main e).trace ∧
    closeCount (main e).trace = 0 ∧
    callsOf (main e).trace = [.authRegister, .boltdbNew, .newServer, .newManager] := by
  induction e using main_paths <;>
    simp_all [main, mainServe, Except.toBool, ReachesListenerConfig, closeCount, callsOf,
      Event.call?]

/-- C8 (amended) at a world with TLS enabled and no certificate file: `main` returns
and never calls `srv.Close`. -/
theorem C8_tls_abort_no_close_witness :
    ReachesListenerConfig tlsNoCertEnv ∧
    (main tlsNoCertEnv).exit = .returned ∧ closeCount (main tlsNoCertEnv).trace = 0 :=
  ⟨by decide, (C8_tls_abort_no_close tlsNoCertEnv (by decide) rfl rfl).1,
    (C8_tls_abort_no_close tlsNoCertEnv (by decide) rfl rfl).2.2.2.1⟩

/-- C10: for a run that reaches `srv.Close`, the run in which `Close` returns an
error and the run in which it returns `nil` both return normally with `srv.Close`
called once and as the last call, leave the same signals unread, and have the same
trace up to the final log line, which is the error line in one and the info line in
the other. -/
theorem C10_close_result_only_logged (e : Env)
    (h : Call.srvClose ∈ callsOf (main e).trace) (err : String) :
    (main { e with close := some err }).exit = .returned ∧
    (main { e with close := none }).exit = .returned ∧
    closeCount (main { e with close := some err }).trace = 1 ∧
    closeCount (main { e with close := none }).trace = 1 ∧
    (callsOf (main { e with close := some err }).trace).getLast? = some .srvClose ∧
    (callsOf (main { e with close := none }).trace).getLast? = some .srvClose ∧
    (main { e with close := some err }).signals = (main { e with close := none }).signals ∧
    (main { e with close := some err }).trace.dropLast =
      (main { e with close := none }).trace.dropLast ∧
    (main { e with close := some err }).trace.getLast? =
      some (.log .error "Couldn't shutdown server" [.error err]) ∧
    (main { e with close := none }).trace.getLast? =
      some (.log .info "Server shut down." []) := by
  induction e using main_paths <;>
    simp_all [main, mainServe, closeCount, callsOf, Event.call?]

/-- C10 at a world where a signal arrives: whether `Close` fails or not, `main`
returns. -/
theorem C10_close_result_only_logged_witness :
    (main { okEnv with close := some "timeout" }).exit = .returned ∧
    (main { okEnv with close := none }).exit = .returned :=
  ⟨(C10_close_result_only_logged okEnv (by decide) "timeout").1,
    (C10_close_result_only_logged okEnv (by decide) "timeout").2.1⟩

end VolantMQ

namespace VolantMQ

/-- C9 at a world where the listener fails to start: `srv.ListenAndServe` is the
last pipeline call of the run. -/
theorem C9_fixed_order_fail_fast_witness :
    callFails listenFailEnv .listenAndServe = true ∧
    (callsOf (main listenFailEnv).trace).getLast? = some Call.listenAndServe :=
  ⟨by decide,
    (C9_fixed_order_fail_fast listenFailEnv).2.2.1 .listenAndServe (by decide) (by decide)⟩

end VolantMQ
